import Mathlib

/-!
Verification of the core computations of the Kho-Bwa core-vocabulary
scripts (heatmap_dendrogram.py): the missing-data-aware Hamming
similarity, the perturbation simulation, and the CLI-level validation
of the noise-distribution selector.

Conventions of the shallow embedding:
* a data matrix is a function `Fin n → Fin p → Option ℤ`; `none` models
  a missing cognacy judgement (pandas NaN after `to_numeric` coercion);
* float arithmetic of the source is modelled over `ℚ`; the IEEE value
  NaN arising from `0/0` is modelled as `none : Option ℚ`;
* the random draws consumed by `np.random.randint` / `np.random.binomial`
  are passed in explicitly as an integer matrix, so that the functions
  stay pure while the data flow of the source is kept.
-/

namespace KhoBwa

/-- Embeds the row subtraction `data_mat.iloc[i, :] - data_mat.iloc[j, :]`
of `hamming_similarity` (heatmap_dendrogram.py line 166): pandas
subtraction propagates NaN, so the per-feature result is defined only
when both operands are. -/
def langComp {n p : ℕ} (data_mat : Fin n → Fin p → Option ℤ)
    (i j : Fin n) (k : Fin p) : Option ℤ :=
  match data_mat i k, data_mat j k with
  | some a, some b => some (a - b)
  | _, _ => none

/-- Embeds `num_comp[i, j] = p - lang_comp.isnull().sum()`
(heatmap_dendrogram.py line 168): the number of features on which both
languages have data. -/
def num_comp {n p : ℕ} (data_mat : Fin n → Fin p → Option ℤ)
    (i j : Fin n) : ℕ :=
  p - (Finset.univ.filter (fun k => langComp data_mat i j k = none)).card

/-- Embeds `num_cog[i, j] = lang_comp[lang_comp == 0].count()`
(heatmap_dendrogram.py line 170): the number of features where the
difference is defined and equal to zero. -/
def num_cog {n p : ℕ} (data_mat : Fin n → Fin p → Option ℤ)
    (i j : Fin n) : ℕ :=
  (Finset.univ.filter (fun k => langComp data_mat i j k = some 0)).card

/-- Embeds the entrywise value of `num_cog/num_comp`
(heatmap_dendrogram.py lines 172-174).  When `num_comp = 0` the source
divides `0.0/0.0`, a silent IEEE NaN, modelled here as `none`; numpy
`inf` cannot arise because `num_cog ≤ num_comp`. -/
def hamming_similarity {n p : ℕ} (data_mat : Fin n → Fin p → Option ℤ)
    (i j : Fin n) : Option ℚ :=
  if num_comp data_mat i j = 0 then none
  else some ((num_cog data_mat i j : ℚ) / (num_comp data_mat i j : ℚ))

/-- Embeds `hamming_similarity(cognacy_matrix) * 100`
(heatmap_dendrogram.py line 278); multiplication by 100 keeps NaN. -/
def calculate_pairwise_cognacy {n p : ℕ} (data_mat : Fin n → Fin p → Option ℤ)
    (i j : Fin n) : Option ℚ :=
  Option.map (fun q => q * 100) (hamming_similarity data_mat i j)

/-- Spec-side count: the number of features where both items have a
defined value (spec section 4.1 step 2). -/
def comparable_count {n p : ℕ} (data_mat : Fin n → Fin p → Option ℤ)
    (i j : Fin n) : ℕ :=
  (Finset.univ.filter
    (fun k => (data_mat i k).isSome ∧ (data_mat j k).isSome)).card

/-- Spec-side count: the number of features where both values are
defined and equal (spec section 4.1 step 3). -/
def cognate_count {n p : ℕ} (data_mat : Fin n → Fin p → Option ℤ)
    (i j : Fin n) : ℕ :=
  (Finset.univ.filter
    (fun k => data_mat i k = data_mat j k ∧ (data_mat i k).isSome)).card

lemma langComp_eq_none_iff {n p : ℕ} (data_mat : Fin n → Fin p → Option ℤ)
    (i j : Fin n) (k : Fin p) :
    langComp data_mat i j k = none ↔
      ¬((data_mat i k).isSome ∧ (data_mat j k).isSome) := by
  cases h1 : data_mat i k <;> cases h2 : data_mat j k <;>
    simp [langComp, h1, h2]

lemma langComp_eq_some_zero_iff {n p : ℕ} (data_mat : Fin n → Fin p → Option ℤ)
    (i j : Fin n) (k : Fin p) :
    langComp data_mat i j k = some 0 ↔
      data_mat i k = data_mat j k ∧ (data_mat i k).isSome := by
  cases h1 : data_mat i k <;> cases h2 : data_mat j k <;>
    simp [langComp, h1, h2, sub_eq_zero]

lemma num_comp_eq_comparable_count {n p : ℕ}
    (data_mat : Fin n → Fin p → Option ℤ) (i j : Fin n) :
    num_comp data_mat i j = comparable_count data_mat i j := by
  have hpart := Finset.filter_card_add_filter_neg_card_eq_card
    (s := (Finset.univ : Finset (Fin p)))
    (fun k => langComp data_mat i j k = none)
  rw [Finset.card_univ, Fintype.card_fin] at hpart
  have hcongr : (Finset.univ.filter
      (fun k => ¬ langComp data_mat i j k = none))
      = Finset.univ.filter
        (fun k => (data_mat i k).isSome ∧ (data_mat j k).isSome) := by
    apply Finset.filter_congr
    intro k _
    rw [langComp_eq_none_iff data_mat i j k]
    exact not_not
  rw [hcongr] at hpart
  unfold num_comp comparable_count
  omega

lemma num_cog_eq_cognate_count {n p : ℕ}
    (data_mat : Fin n → Fin p → Option ℤ) (i j : Fin n) :
    num_cog data_mat i j = cognate_count data_mat i j := by
  unfold num_cog cognate_count
  congr 1
  apply Finset.filter_congr
  intro k _
  simp [langComp_eq_some_zero_iff]

/-- Embeds the symmetrization
`random_matrix = (random_matrix + random_matrix.T) / 2`
(heatmap_dendrogram.py lines 237 and 241). -/
def symmetrizeMatrix {n : ℕ} (M : Fin n → Fin n → ℚ) :
    Fin n → Fin n → ℚ :=
  fun i j => (M i j + M j i) / 2

/-- Embeds `create_random_matrix(distr, mean, spread, dim)`
(heatmap_dendrogram.py lines 223-242).  `R` supplies the raw random
draws of `np.random.binomial(n=spread*2, p=0.5)` resp.
`np.random.randint(-spread, high=spread)`.  `np.random.binomial` raises
`ValueError` when the trial count `spread*2` is negative, and
`np.random.randint` raises `ValueError: low >= high` when
`-spread >= spread`, i.e. when `spread <= 0`; both are modelled as
`Except.error`.  For any other `distr` string neither branch assigns
`random_matrix` and the final `return random_matrix` raises
`UnboundLocalError`. -/
def create_random_matrix {n : ℕ} (distr : String) (mean spread : ℤ)
    (R : Fin n → Fin n → ℤ) : Except String (Fin n → Fin n → ℚ) :=
  if distr = "binomial" then
    if spread < 0 then Except.error "ValueError: n < 0"
    else Except.ok (symmetrizeMatrix
      (fun i j => (R i j : ℚ) - (spread : ℚ) + (mean : ℚ)))
  else if distr = "uniform" then
    if spread ≤ 0 then Except.error "ValueError: low >= high"
    else Except.ok (symmetrizeMatrix
      (fun i j => (R i j : ℚ) + (mean : ℚ)))
  else Except.error "UnboundLocalError: random_matrix"

/-- Embeds the perturbation body of `simulate_random_variation`
(heatmap_dendrogram.py lines 261-268):
`data_plus_random_matrix = data_set + random_matrix`, then the mask
assignment `[... > 100] = 99`, then `[... < 0] = 0`, then the diagonal
is set to 100.  `data_set` entries may be NaN (`none`): pandas
propagates NaN through `+` and a NaN entry fails both comparisons, so
it survives the clamps untouched; the diagonal assignment overwrites
unconditionally.  `clampHigh` is the entrywise effect of the mask
assignment `data_plus_random_matrix[data_plus_random_matrix > 100] = 99`
(line 263). -/
def clampHigh (x : Option ℚ) : Option ℚ :=
  match x with
  | some v => if 100 < v then some 99 else some v
  | none => none

/-- Entrywise effect of the mask assignment
`data_plus_random_matrix[data_plus_random_matrix < 0] = 0`
(heatmap_dendrogram.py line 265). -/
def clampLow (x : Option ℚ) : Option ℚ :=
  match x with
  | some v => if v < 0 then some 0 else some v
  | none => none

/-- Entrywise value of the perturbed matrix of
`simulate_random_variation` (heatmap_dendrogram.py lines 261-268):
`data_set + random_matrix`, clamp above, clamp below, then the
diagonal assignment `values[[np.arange(dim[0])] * 2] = 100` overwrites
the diagonal unconditionally. -/
def applyPerturbation {n : ℕ} (data_set : Fin n → Fin n → Option ℚ)
    (noise : Fin n → Fin n → ℚ) : Fin n → Fin n → Option ℚ :=
  fun i j =>
    if i = j then some 100
    else clampLow (clampHigh
      (Option.map (fun v => v + noise i j) (data_set i j)))

/-- Embeds the loop of `simulate_random_variation`
(heatmap_dendrogram.py lines 246-271): one perturbed matrix per
iteration, in iteration order; the result list collects the matrices
handed to `plot_heatmap_with_dendrogram`.  The first numpy exception
aborts the run.  Python argument order is
`(data_set, no_sim, distr, spread, mean, ...)`; `draws t` supplies the
raw random draws of iteration `t`. -/
def simulate_random_variation {n : ℕ} (data_set : Fin n → Fin n → Option ℚ)
    (no_sim : ℕ) (distr : String) (spread mean : ℤ)
    (draws : ℕ → Fin n → Fin n → ℤ) :
    Except String (List (Fin n → Fin n → Option ℚ)) :=
  match no_sim with
  | 0 => Except.ok []
  | m + 1 => do
      let rest ← simulate_random_variation data_set m distr spread mean draws
      let noise ← create_random_matrix distr mean spread (draws m)
      Except.ok (rest ++ [applyPerturbation data_set noise])

/-- Embeds the `simulate` CLI command (heatmap_dendrogram.py lines
343-371).  The option `--distr` is declared
`click.Choice(['uniform', 'binomial'])`, so click rejects any other
string while parsing the command line, before the command body (which
computes `calculate_pairwise_cognacy` and then calls
`simulate_random_variation`) runs. -/
def simulate_cmd {n p : ℕ} (distr : String) (count : ℕ) (spread mean : ℤ)
    (data_mat : Fin n → Fin p → Option ℤ)
    (draws : ℕ → Fin n → Fin n → ℤ) :
    Except String (List (Fin n → Fin n → Option ℚ)) :=
  if distr = "uniform" ∨ distr = "binomial" then
    simulate_random_variation
      (fun i j => calculate_pairwise_cognacy data_mat i j)
      count distr spread mean draws
  else Except.error "Invalid value for distr: invalid choice"

/-- Embeds appending one feature column in which every value is
missing. -/
def appendMissingColumn {n p : ℕ} (data_mat : Fin n → Fin p → Option ℤ) :
    Fin n → Fin (p + 1) → Option ℤ :=
  fun i k => if h : (k : ℕ) < p then data_mat i ⟨k, h⟩ else none

/-- The worked example of the source commentary
(heatmap_dendrogram.py lines 116-120): three languages, four concepts,
`[[1,1,1,NA],[1,NA,2,1],[2,2,3,1]]`. -/
def dm3 : Fin 3 → Fin 4 → Option ℤ :=
  ![![some 1, some 1, some 1, none],
    ![some 1, none, some 2, some 1],
    ![some 2, some 2, some 3, some 1]]

/-- A degenerate data matrix: the two items share no feature on which
both have data. -/
def dmDegenerate : Fin 2 → Fin 2 → Option ℤ :=
  ![![some 1, none], ![none, some 1]]

/-- A data matrix whose single item has no defined feature at all. -/
def dmAllMissing : Fin 1 → Fin 1 → Option ℤ := ![![none]]

/-- The 2x2 similarity matrix `[[100,80],[80,100]]` of the spec
scenario, with all entries defined. -/
def simMat2 : Fin 2 → Fin 2 → Option ℚ :=
  ![![some 100, some 80], ![some 80, some 100]]

/-- C1: for every data matrix and every pair of items with at least one
feature where both values are defined, the similarity computed by
`hamming_similarity` scaled by 100 as in `calculate_pairwise_cognacy`
equals exactly `100 * cognate_count / comparable_count`. -/
theorem C1_pairwise_cognacy_formula {n p : ℕ}
    (data_mat : Fin n → Fin p → Option ℤ) (i j : Fin n)
    (h : 0 < comparable_count data_mat i j) :
    calculate_pairwise_cognacy data_mat i j
      = some (100 * (cognate_count data_mat i j : ℚ)
          / (comparable_count data_mat i j : ℚ)) := by
  have hcomp := num_comp_eq_comparable_count data_mat i j
  have hcog := num_cog_eq_cognate_count data_mat i j
  have hne : ¬ num_comp data_mat i j = 0 := by omega
  rw [calculate_pairwise_cognacy, hamming_similarity, if_neg hne,
    hcomp, hcog, Option.map_some']
  congr 1
  ring

theorem C1_pairwise_cognacy_formula_witness :
    calculate_pairwise_cognacy dm3 0 1
      = some (100 * (cognate_count dm3 0 1 : ℚ)
          / (comparable_count dm3 0 1 : ℚ)) :=
  C1_pairwise_cognacy_formula dm3 0 1 (by decide)

/-- C2 counterexample: the claim asserts similarity(item2, item3) = 0
and similarity(item1, item3) = 100/3, but the code computes
similarity(item2, item3) = 100/3 and similarity(item1, item3) = 0 (the
two values are swapped in the claim, following a slip in the source
commentary). -/
theorem C2_worked_example_counterexample :
    calculate_pairwise_cognacy dm3 1 2 ≠ some 0 ∧
      calculate_pairwise_cognacy dm3 0 2 ≠ some (100 / 3) := by
  have h12 : calculate_pairwise_cognacy dm3 1 2 = some (100 / 3) := by
    simp [calculate_pairwise_cognacy, hamming_similarity,
      show num_comp dm3 1 2 = 3 from by decide,
      show num_cog dm3 1 2 = 1 from by decide]
    norm_num
  have h02 : calculate_pairwise_cognacy dm3 0 2 = some 0 := by
    simp [calculate_pairwise_cognacy, hamming_similarity,
      show num_comp dm3 0 2 = 3 from by decide,
      show num_cog dm3 0 2 = 0 from by decide]
  rw [h12, h02]
  constructor
  · intro hc
    rw [Option.some.injEq] at hc
    norm_num at hc
  · intro hc
    rw [Option.some.injEq] at hc
    norm_num at hc

/-- C2 (amended): for the data matrix `[[1,1,1,NA],[1,NA,2,1],[2,2,3,1]]`
the code yields similarity(item1, item2) = 50,
similarity(item2, item3) = 100/3 and similarity(item1, item3) = 0. -/
theorem C2_worked_example_amended :
    calculate_pairwise_cognacy dm3 0 1 = some 50 ∧
      calculate_pairwise_cognacy dm3 1 2 = some (100 / 3) ∧
      calculate_pairwise_cognacy dm3 0 2 = some 0 := by
  refine ⟨?_, ?_, ?_⟩
  · simp [calculate_pairwise_cognacy, hamming_similarity,
      show num_comp dm3 0 1 = 2 from by decide,
      show num_cog dm3 0 1 = 1 from by decide]
    norm_num
  · simp [calculate_pairwise_cognacy, hamming_similarity,
      show num_comp dm3 1 2 = 3 from by decide,
      show num_cog dm3 1 2 = 1 from by decide]
    norm_num
  · simp [calculate_pairwise_cognacy, hamming_similarity,
      show num_comp dm3 0 2 = 3 from by decide,
      show num_cog dm3 0 2 = 0 from by decide]

/-- C3: the claim demands an explicit undefined-similarity failure for
a pair with zero comparable features; the code instead divides 0/0 and
stores a silent NaN (modelled `none`) in the similarity matrix, which
then flows on to rendering.  This theorem evaluates the code at the
failing input `[[1, NA], [NA, 1]]`, pair (0, 1). -/
theorem C3_degenerate_pair_silent_nan :
    num_comp dmDegenerate 0 1 = 0 ∧
      hamming_similarity dmDegenerate 0 1 = none ∧
      calculate_pairwise_cognacy dmDegenerate 0 1 = none := by
  refine ⟨by decide, ?_, ?_⟩ <;>
    simp [calculate_pairwise_cognacy, hamming_similarity,
      show num_comp dmDegenerate 0 1 = 0 from by decide]

/-- C4 counterexample: the claim asserts the diagonal is 100 for every
data matrix, but an item with no defined feature at all yields NaN
(`none`) on the diagonal, not 100. -/
theorem C4_diagonal_counterexample :
    calculate_pairwise_cognacy dmAllMissing 0 0 ≠ some 100 := by
  simp [calculate_pairwise_cognacy, hamming_similarity,
    show num_comp dmAllMissing 0 0 = 0 from by decide]

/-- C4 (amended): for every item `i` that has at least one defined
feature, the diagonal entry satisfies similarity(i, i) = 100. -/
theorem C4_diagonal_self_similarity {n p : ℕ}
    (data_mat : Fin n → Fin p → Option ℤ) (i : Fin n)
    (h : ∃ k, (data_mat i k).isSome) :
    calculate_pairwise_cognacy data_mat i i = some 100 := by
  have hcc : cognate_count data_mat i i = comparable_count data_mat i i := by
    unfold cognate_count comparable_count
    congr 1
    apply Finset.filter_congr
    intro k _
    simp
  have hpos : 0 < comparable_count data_mat i i := by
    obtain ⟨k, hk⟩ := h
    apply Finset.card_pos.mpr
    exact ⟨k, Finset.mem_filter.mpr ⟨Finset.mem_univ k, hk, hk⟩⟩
  have hcomp := num_comp_eq_comparable_count data_mat i i
  have hcog := num_cog_eq_cognate_count data_mat i i
  have hne : ¬ num_comp data_mat i i = 0 := by omega
  have hQ : (comparable_count data_mat i i : ℚ) ≠ 0 :=
    Nat.cast_ne_zero.mpr (by omega)
  rw [calculate_pairwise_cognacy, hamming_similarity, if_neg hne,
    hcomp, hcog, hcc, Option.map_some']
  rw [div_self hQ]
  norm_num

theorem C4_diagonal_self_similarity_witness :
    calculate_pairwise_cognacy dm3 0 0 = some 100 :=
  C4_diagonal_self_similarity dm3 0 ⟨0, by decide⟩

/-- C5: the similarity matrix produced by `hamming_similarity` is
symmetric: similarity(i, j) = similarity(j, i) for every data matrix
and every pair of items. -/
theorem C5_similarity_symmetric {n p : ℕ}
    (data_mat : Fin n → Fin p → Option ℤ) (i j : Fin n) :
    hamming_similarity data_mat i j = hamming_similarity data_mat j i := by
  have hcompSymm : num_comp data_mat i j = num_comp data_mat j i := by
    unfold num_comp
    congr 2
    apply Finset.filter_congr
    intro k _
    rw [langComp_eq_none_iff, langComp_eq_none_iff]
    tauto
  have hcogSymm : num_cog data_mat i j = num_cog data_mat j i := by
    unfold num_cog
    congr 1
    apply Finset.filter_congr
    intro k _
    rw [langComp_eq_some_zero_iff, langComp_eq_some_zero_iff]
    constructor
    · rintro ⟨he, hs⟩
      exact ⟨he.symm, he ▸ hs⟩
    · rintro ⟨he, hs⟩
      exact ⟨he.symm, he ▸ hs⟩
  rw [hamming_similarity, hamming_similarity, hcompSymm, hcogSymm]

lemma appendMissingColumn_castSucc {n p : ℕ}
    (data_mat : Fin n → Fin p → Option ℤ) (i : Fin n) (k : Fin p) :
    appendMissingColumn data_mat i (Fin.castSucc k) = data_mat i k := by
  have hk : ((Fin.castSucc k : Fin (p + 1)) : ℕ) < p := k.isLt
  rw [appendMissingColumn, dif_pos hk]
  congr 1

lemma appendMissingColumn_last {n p : ℕ}
    (data_mat : Fin n → Fin p → Option ℤ) (i : Fin n) :
    appendMissingColumn data_mat i (Fin.last p) = none := by
  rw [appendMissingColumn, dif_neg]
  simp

lemma langComp_appendMissingColumn_castSucc {n p : ℕ}
    (data_mat : Fin n → Fin p → Option ℤ) (i j : Fin n) (k : Fin p) :
    langComp (appendMissingColumn data_mat) i j (Fin.castSucc k)
      = langComp data_mat i j k := by
  unfold langComp
  rw [appendMissingColumn_castSucc, appendMissingColumn_castSucc]

lemma langComp_appendMissingColumn_last {n p : ℕ}
    (data_mat : Fin n → Fin p → Option ℤ) (i j : Fin n) :
    langComp (appendMissingColumn data_mat) i j (Fin.last p) = none := by
  unfold langComp
  rw [appendMissingColumn_last, appendMissingColumn_last]

lemma num_comp_appendMissingColumn {n p : ℕ}
    (data_mat : Fin n → Fin p → Option ℤ) (i j : Fin n) :
    num_comp (appendMissingColumn data_mat) i j = num_comp data_mat i j := by
  unfold num_comp
  rw [Finset.card_filter, Finset.card_filter, Fin.sum_univ_castSucc]
  simp [langComp_appendMissingColumn_castSucc,
    langComp_appendMissingColumn_last]

lemma num_cog_appendMissingColumn {n p : ℕ}
    (data_mat : Fin n → Fin p → Option ℤ) (i j : Fin n) :
    num_cog (appendMissingColumn data_mat) i j = num_cog data_mat i j := by
  unfold num_cog
  rw [Finset.card_filter, Finset.card_filter, Fin.sum_univ_castSucc]
  simp [langComp_appendMissingColumn_castSucc,
    langComp_appendMissingColumn_last]

/-- C10: appending a feature column in which every value is missing
leaves every entry of the derived similarity matrix unchanged. -/
theorem C10_fully_missing_column_invariant {n p : ℕ}
    (data_mat : Fin n → Fin p → Option ℤ) (i j : Fin n) :
    calculate_pairwise_cognacy (appendMissingColumn data_mat) i j
      = calculate_pairwise_cognacy data_mat i j := by
  rw [calculate_pairwise_cognacy, calculate_pairwise_cognacy,
    hamming_similarity, hamming_similarity,
    num_comp_appendMissingColumn, num_cog_appendMissingColumn]

lemma symmetrizeMatrix_symm {n : ℕ} (M : Fin n → Fin n → ℚ) (i j : Fin n) :
    symmetrizeMatrix M i j = symmetrizeMatrix M j i := by
  unfold symmetrizeMatrix
  ring

lemma applyPerturbation_symm {n : ℕ} (S : Fin n → Fin n → Option ℚ)
    (noise : Fin n → Fin n → ℚ) (hS : ∀ i j, S i j = S j i)
    (hnoise : ∀ i j, noise i j = noise j i) (i j : Fin n) :
    applyPerturbation S noise i j = applyPerturbation S noise j i := by
  by_cases heq : i = j
  · subst heq
    rfl
  · have hne : ¬ j = i := fun hc => heq hc.symm
    simp only [applyPerturbation, if_neg heq, if_neg hne,
      hS i j, hnoise i j]

/-- C6: in the perturbed matrix produced by the body of
`simulate_random_variation`, every off-diagonal entry of S + noise
strictly above 100 becomes 99 (not 100), every off-diagonal entry
strictly below 0 becomes 0, and every diagonal entry is forced to
exactly 100 regardless of the computed value. -/
theorem C6_perturbation_clamping {n : ℕ}
    (S : Fin n → Fin n → Option ℚ) (noise : Fin n → Fin n → ℚ)
    (i j : Fin n) (s : ℚ) (hS : S i j = some s) :
    (i ≠ j → 100 < s + noise i j →
        applyPerturbation S noise i j = some 99) ∧
      (i ≠ j → s + noise i j < 0 →
        applyPerturbation S noise i j = some 0) ∧
      (i = j → applyPerturbation S noise i j = some 100) := by
  refine ⟨?_, ?_, ?_⟩
  · intro hne hgt
    simp [applyPerturbation, clampHigh, clampLow, hS, hne, hgt,
      show ¬ ((99 : ℚ) < 0) from by norm_num]
  · intro hne hlt
    have hngt : ¬ (100 < s + noise i j) := by linarith
    simp [applyPerturbation, clampHigh, clampLow, hS, hne, hngt, hlt]
  · intro heq
    simp [applyPerturbation, heq]

/-- Noise matrix used to exhibit an entry of 105 after noise
addition. -/
def noise25 : Fin 2 → Fin 2 → ℚ := ![![0, 25], ![25, 0]]

theorem C6_perturbation_clamping_witness :
    applyPerturbation simMat2 noise25 0 1 = some 99 :=
  (C6_perturbation_clamping simMat2 noise25 0 1 80 rfl).1
    (by decide) (by norm_num [noise25])

/-- C7: every noise matrix successfully produced by
`create_random_matrix` (either distribution branch) is symmetric, and
consequently the perturbed similarity matrix remains symmetric whenever
the similarity matrix is symmetric. -/
theorem C7_noise_symmetrization {n : ℕ} (distr : String) (mean spread : ℤ)
    (R : Fin n → Fin n → ℤ) (noise : Fin n → Fin n → ℚ)
    (h : create_random_matrix distr mean spread R = Except.ok noise) :
    (∀ i j, noise i j = noise j i) ∧
      ∀ S : Fin n → Fin n → Option ℚ, (∀ i j, S i j = S j i) →
        ∀ i j, applyPerturbation S noise i j = applyPerturbation S noise j i := by
  have hsym : ∀ i j, noise i j = noise j i := by
    intro i j
    unfold create_random_matrix at h
    split_ifs at h
    all_goals simp only [Except.ok.injEq] at h
    all_goals rw [← h]
    all_goals apply symmetrizeMatrix_symm
  exact ⟨hsym, fun S hS i j => applyPerturbation_symm S noise hS hsym i j⟩

/-- Raw uniform draws used in the C7 witness. -/
def drawsW : Fin 2 → Fin 2 → ℤ := ![![0, -1], ![0, 0]]

/-- The noise matrix `create_random_matrix` produces from `drawsW` in
the uniform branch with mean 0 and spread 1. -/
def noiseW : Fin 2 → Fin 2 → ℚ :=
  symmetrizeMatrix (fun i j => (drawsW i j : ℚ) + ((0 : ℤ) : ℚ))

theorem C7_noise_symmetrization_witness :
    noiseW 0 1 = noiseW 1 0 ∧
      applyPerturbation simMat2 noiseW 0 1
        = applyPerturbation simMat2 noiseW 1 0 := by
  have h := C7_noise_symmetrization "uniform" 0 1 drawsW noiseW rfl
  exact ⟨h.1 0 1, h.2 simMat2 (by decide) 0 1⟩

/-- C8 counterexample: with the uniform distribution (the default of
the `simulate` command) and spread 0, `np.random.randint(-0, high=0)`
raises `ValueError: low >= high`, so the perturbation procedure fails
instead of returning the input matrix `[[100,80],[80,100]]`
unchanged. -/
theorem C8_spread_zero_counterexample :
    simulate_random_variation simMat2 1 "uniform" 0 0 (fun _ _ _ => 0)
      ≠ Except.ok [simMat2] := by
  intro hcontra
  rw [show simulate_random_variation simMat2 1 "uniform" 0 0
      (fun _ _ _ => 0) = Except.error "ValueError: low >= high" from rfl]
    at hcontra
  exact Except.noConfusion hcontra

/-- C8 (amended): with the binomial distribution, spread 0 and mean 0,
every raw draw of `np.random.binomial(n=0, p=0.5)` is 0, the noise
matrix is zero, and the perturbation (clamping and diagonal rules
included) returns `[[100,80],[80,100]]` unchanged; with the uniform
distribution spread 0 is instead a fatal error, because the draw range
`[-0, 0)` is empty. -/
theorem C8_spread_zero_binomial_identity (R : Fin 2 → Fin 2 → ℤ)
    (hR : ∀ i j, 0 ≤ R i j ∧ R i j ≤ 2 * 0) :
    simulate_random_variation simMat2 1 "binomial" 0 0 (fun _ => R)
      = Except.ok [simMat2] := by
  have hzero : ∀ i j, R i j = 0 := by
    intro i j
    have h := hR i j
    omega
  have hfirst : simulate_random_variation simMat2 1 "binomial" 0 0
      (fun _ => R) = Except.ok [applyPerturbation simMat2
        (symmetrizeMatrix
          (fun i j => (R i j : ℚ) - ((0 : ℤ) : ℚ) + ((0 : ℤ) : ℚ)))] := rfl
  rw [hfirst]
  have hn0 : symmetrizeMatrix
      (fun i j => (R i j : ℚ) - ((0 : ℤ) : ℚ) + ((0 : ℤ) : ℚ))
      = fun _ _ => (0 : ℚ) := by
    funext i j
    simp [symmetrizeMatrix, hzero i j, hzero j i]
  rw [hn0]
  have hpert : applyPerturbation simMat2 (fun _ _ => (0 : ℚ)) = simMat2 := by
    funext i j
    fin_cases i <;> fin_cases j <;>
      simp [applyPerturbation, clampHigh, clampLow, simMat2] <;> norm_num
  rw [hpert]

theorem C8_spread_zero_binomial_identity_witness :
    simulate_random_variation simMat2 1 "binomial" 0 0 (fun _ _ _ => 0)
      = Except.ok [simMat2] :=
  C8_spread_zero_binomial_identity (fun _ _ => 0) (by decide)

/-- C9: for every distribution selector other than `uniform` and
`binomial`, the `simulate` command is rejected by the
`click.Choice(['uniform', 'binomial'])` validation of `--distr` with a
fatal configuration error; the result is this error for every input
data matrix and every draw sequence, so no similarity computation or
noise generation contributes to it. -/
theorem C9_invalid_distr_rejected {n p : ℕ} (distr : String)
    (count : ℕ) (spread mean : ℤ)
    (data_mat : Fin n → Fin p → Option ℤ)
    (draws : ℕ → Fin n → Fin n → ℤ)
    (h1 : distr ≠ "uniform") (h2 : distr ≠ "binomial") :
    simulate_cmd distr count spread mean data_mat draws
      = Except.error "Invalid value for distr: invalid choice" := by
  rw [simulate_cmd, if_neg]
  rintro (hc | hc)
  · exact h1 hc
  · exact h2 hc

theorem C9_invalid_distr_rejected_witness :
    simulate_cmd "gaussian" 1 20 0 dmAllMissing (fun _ _ _ => 0)
      = Except.error "Invalid value for distr: invalid choice" :=
  C9_invalid_distr_rejected "gaussian" 1 20 0 dmAllMissing
    (fun _ _ _ => 0) (by decide) (by decide)

end KhoBwa
